import Mathlib

/-!
Shallow embedding of the résumé-screening agent utilities
(`src/lecture_2/notebooks/resume_utils.py` and
`src/lecture_4/notebooks/agent_utils.py`).

JSON values and Python runtime values are modelled explicitly; the remote
chat-completion endpoint is modelled as a function from the outgoing HTTP
request to an abstract outcome (network failure, or a response with a status
code and a body that either decodes to JSON or fails to decode).  The Python
standard-library JSON string parser `json.loads` that runs on the returned
message content is external-library code, so it is passed in as an explicit
`parse` argument of type `String → Except String Json`.
-/

namespace ResumeAgent

/-- JSON values.  Numbers are modelled as rationals (this covers every numeric
literal the source sends: temperatures 0.2/0.3 and the integer token limits). -/
inductive Json where
  | null : Json
  | bool (b : Bool) : Json
  | num (q : ℚ) : Json
  | str (s : String) : Json
  | arr (elems : List Json) : Json
  | obj (fields : List (String × Json)) : Json

/-- Python runtime values as far as the source manipulates them: the context
dictionary in `structured_llm_call` is `Dict[str, Any]`, and the tool handlers
return dictionaries with string and boolean values. -/
inductive PyValue where
  | none : PyValue
  | bool (b : Bool) : PyValue
  | num (q : ℚ) : PyValue
  | str (s : String) : PyValue
deriving DecidableEq

/-- Python `str()` / f-string rendering of a value.  `None` renders as the
four-character string "None", booleans capitalised, strings unchanged. -/
def pyStr : PyValue → String
  | PyValue.none => "None"
  | PyValue.bool true => "True"
  | PyValue.bool false => "False"
  | PyValue.num q => toString q
  | PyValue.str s => s

/-- Python string slicing `s[:n]`: the first `n` code points. -/
def pyTake (s : String) (n : Nat) : String := String.mk (s.data.take n)

mutual

/-- Textual rendering of a JSON value, modelling the `json.dumps(output_schema,
indent=2)` call in `structured_llm_call` (the claims never inspect the exact
layout of this text, only that it is a function of the schema). -/
def jsonDumps : Json → String
  | Json.null => "null"
  | Json.bool true => "true"
  | Json.bool false => "false"
  | Json.num q => toString q
  | Json.str s => "\x22" ++ s ++ "\x22"
  | Json.arr xs => "[" ++ jsonDumpsArr xs ++ "]"
  | Json.obj kvs => "\x7b" ++ jsonDumpsObj kvs ++ "\x7d"

def jsonDumpsArr : List Json → String
  | [] => ""
  | [x] => jsonDumps x
  | x :: xs => jsonDumps x ++ ", " ++ jsonDumpsArr xs

def jsonDumpsObj : List (String × Json) → String
  | [] => ""
  | [kv] => "\x22" ++ kv.1 ++ "\x22: " ++ jsonDumps kv.2
  | kv :: kvs => "\x22" ++ kv.1 ++ "\x22: " ++ jsonDumps kv.2 ++ ", " ++ jsonDumpsObj kvs

end

/-! ## Context Assembler (`agent_utils.structured_llm_call`, lines 59-64) -/

/-- The string appended to an oversized string field:
`value = value[:5000] + "\n... (truncated)"`. -/
def TRUNCATION_MARKER : String := "\n... (truncated)"

/-- `if isinstance(value, str) and len(value) > 5000: value = value[:5000] + marker`. -/
def truncateValue : PyValue → PyValue
  | PyValue.str s =>
      if s.length > 5000 then PyValue.str (pyTake s 5000 ++ TRUNCATION_MARKER)
      else PyValue.str s
  | v => v

/-- Python `key.upper()`: upper-case the characters of the string. -/
def pyUpper (s : String) : String := String.mk (s.data.map Char.toUpper)

/-- One iteration of the context loop:
`context_str += f"\n\x7bkey.upper()\x7d:\n\x7bvalue\x7d\n"`. -/
def renderField (key : String) (value : PyValue) : String :=
  "\n" ++ pyUpper key ++ ":\n" ++ pyStr (truncateValue value) ++ "\n"

/-- The whole context-building loop of `structured_llm_call` (lines 60-64). -/
def buildContextStr (context_data : List (String × PyValue)) : String :=
  context_data.foldl (fun acc kv => acc ++ renderField kv.1 kv.2) ""

/-- The f-string at lines 70-77 of `agent_utils.py`. -/
def structured_full_prompt (prompt : String) (context_data : List (String × PyValue))
    (output_schema : Json) : String :=
  prompt ++ "\n\n" ++ buildContextStr context_data
    ++ "\n\nReturn a JSON object with this exact structure:\n" ++ jsonDumps output_schema
    ++ "\n\nIMPORTANT: Return ONLY valid JSON, no additional text or markdown formatting."

/-! ## Context assembly in `resume_utils.analyze_resume` (lines 53-62) -/

/-- How `analyze_resume` renders the resume into its prompt:
`resume_text[:3000]` — a 3000-character slice, with no truncation marker. -/
def analyzeRenderedResume (resume_text : String) : String := pyTake resume_text 3000

/-- The f-string at lines 54-62 of `resume_utils.py`
(`output_schema` is a plain string parameter there, interpolated directly). -/
def analyze_full_prompt (prompt resume_text output_schema : String) : String :=
  prompt ++ "\n\nResume:\n" ++ analyzeRenderedResume resume_text
    ++ "\n\nReturn a JSON object with this structure:\n" ++ output_schema
    ++ "\n\nReturn ONLY valid JSON, no additional text."

/-! ## Completion Gateway -/

/-- The envelope both gateway functions return: a dict with keys
`result`, `error`, `usage`. -/
structure CompletionEnvelope where
  result : Option Json
  error : Option String
  usage : Json

/-- How a response body behaves under `resp.json()`: it either decodes to a
JSON value or raises a decode error. -/
inductive BodyModel where
  | invalid (err : String) : BodyModel
  | json (data : Json) : BodyModel

/-- An HTTP response: status code plus body. -/
structure HttpResponse where
  status : Nat
  body : BodyModel

/-- Outcome of `client.post(...)`: either the call raises (connect error,
timeout, ...) or a response arrives. -/
inductive PostOutcome where
  | netFailure (msg : String) : PostOutcome
  | response (resp : HttpResponse) : PostOutcome

/-- The outgoing HTTP request both gateway functions construct. -/
structure HttpRequest where
  url : String
  headers : List (String × String)
  payload : Json

/-- Stringification of the `httpx.HTTPStatusError` raised by
`resp.raise_for_status()` on a status outside 200-299. -/
def statusErrorMessage (status : Nat) : String :=
  "HTTPStatusError: status code " ++ toString status

/-- Python subscription `j[k]` on a decoded JSON value: succeeds only on an
object containing the key; everything else raises (KeyError / TypeError). -/
def pyGetKey (j : Json) (k : String) : Except String Json :=
  match j with
  | Json.obj kvs =>
      match kvs.lookup k with
      | some v => Except.ok v
      | Option.none => Except.error ("KeyError: \x27" ++ k ++ "\x27")
  | _ => Except.error "TypeError: value is not subscriptable by a string key"

/-- Python subscription `j[i]` with an integer index: succeeds on an array of
sufficient length; everything else raises.  (Indexing a Python `str` with `0`
would yield a one-character string, but the next subscription in the chain
below raises on it anyway, so it is folded into the failure case.) -/
def pyIndex (j : Json) (i : Nat) : Except String Json :=
  match j with
  | Json.arr xs =>
      match xs.get? i with
      | some v => Except.ok v
      | Option.none => Except.error "IndexError: list index out of range"
  | _ => Except.error "TypeError: value is not subscriptable by an integer index"

/-- `data["choices"][0]["message"]["content"]` followed by the requirement of
`json.loads` that its argument be a string. -/
def extractContent (data : Json) : Except String String := do
  let choices ← pyGetKey data "choices"
  let first ← pyIndex choices 0
  let message ← pyGetKey first "message"
  let content ← pyGetKey message "content"
  match content with
  | Json.str s => Except.ok s
  | _ => Except.error "TypeError: the JSON object must be str, bytes or bytearray"

/-- Python `data.get("usage", \x7b\x7d)`. -/
def jsonGetDefault (j : Json) (k : String) (dflt : Json) : Json :=
  match j with
  | Json.obj kvs =>
      match kvs.lookup k with
      | some v => v
      | Option.none => dflt
  | _ => dflt

/-- The shared `try/except` body of both gateway functions (lines 93-112 of
`agent_utils.py` and lines 78-97 of `resume_utils.py`, which are identical):
post, `raise_for_status`, `resp.json()`, content extraction, `json.loads`,
with every exception converted by the `except` clause into
`\x7bresult: None, error: str(e), usage: \x7b\x7d\x7d`.  Totality of this Lean
function is the embedding of "never raises to its caller". -/
def completionAttempt (parse : String → Except String Json) :
    PostOutcome → CompletionEnvelope
  | PostOutcome.netFailure msg => ⟨Option.none, some msg, Json.obj []⟩
  | PostOutcome.response resp =>
      if resp.status < 200 ∨ 300 ≤ resp.status then
        ⟨Option.none, some (statusErrorMessage resp.status), Json.obj []⟩
      else
        match resp.body with
        | BodyModel.invalid e => ⟨Option.none, some e, Json.obj []⟩
        | BodyModel.json data =>
            match extractContent data with
            | Except.error e => ⟨Option.none, some e, Json.obj []⟩
            | Except.ok content =>
                match parse content with
                | Except.error e => ⟨Option.none, some e, Json.obj []⟩
                | Except.ok result =>
                    ⟨some result, Option.none, jsonGetDefault data "usage" (Json.obj [])⟩

/-- The request `structured_llm_call` builds (lines 80-91 of `agent_utils.py`). -/
def structured_llm_call_request (api_key prompt : String)
    (context_data : List (String × PyValue)) (output_schema : Json)
    (model : String) (temperature : ℚ) : HttpRequest :=
  ⟨"https://openrouter.ai/api/v1/chat/completions",
   [("Authorization", "Bearer " ++ api_key), ("Content-Type", "application/json")],
   Json.obj
     [("model", Json.str model),
      ("messages", Json.arr [Json.obj
        [("role", Json.str "user"),
         ("content", Json.str (structured_full_prompt prompt context_data output_schema))]]),
      ("temperature", Json.num temperature),
      ("max_tokens", Json.num 2000),
      ("response_format", Json.obj [("type", Json.str "json_object")])]⟩

/-- `agent_utils.structured_llm_call`: build the prompt and request, issue the
post against the endpoint (modelled as a function of the request), and run the
shared try/except body. -/
def structured_llm_call (parse : String → Except String Json)
    (api_key prompt : String) (context_data : List (String × PyValue))
    (output_schema : Json) (model : String) (temperature : ℚ)
    (endpoint : HttpRequest → PostOutcome) : CompletionEnvelope :=
  completionAttempt parse
    (endpoint (structured_llm_call_request api_key prompt context_data output_schema
      model temperature))

/-- The request `analyze_resume` builds (lines 65-76 of `resume_utils.py`). -/
def analyze_resume_request (api_key prompt resume_text output_schema : String)
    (model : String) (temperature : ℚ) : HttpRequest :=
  ⟨"https://openrouter.ai/api/v1/chat/completions",
   [("Authorization", "Bearer " ++ api_key), ("Content-Type", "application/json")],
   Json.obj
     [("model", Json.str model),
      ("messages", Json.arr [Json.obj
        [("role", Json.str "user"),
         ("content", Json.str (analyze_full_prompt prompt resume_text output_schema))]]),
      ("temperature", Json.num temperature),
      ("max_tokens", Json.num 1500),
      ("response_format", Json.obj [("type", Json.str "json_object")])]⟩

/-- `resume_utils.analyze_resume`. -/
def analyze_resume (parse : String → Except String Json)
    (api_key prompt resume_text output_schema : String)
    (model : String) (temperature : ℚ)
    (endpoint : HttpRequest → PostOutcome) : CompletionEnvelope :=
  completionAttempt parse
    (endpoint (analyze_resume_request api_key prompt resume_text output_schema
      model temperature))

/-! ## Tools (`agent_utils.py`, lines 119-248)

Each handler returns a fresh dictionary literal; `Outcome` models that
dictionary with insertion order preserved. -/

/-- The outcome dictionary a tool handler returns. -/
abbrev Outcome := List (String × PyValue)

/-- `agent_utils.schedule_technical_assessment` (lines 119-135). -/
def schedule_technical_assessment (candidate_id assessment_type : String) : Outcome :=
  [("status", PyValue.str "success"),
   ("message", PyValue.str ("Technical assessment (" ++ assessment_type
      ++ ") scheduled for candidate " ++ candidate_id)),
   ("assessment_type", PyValue.str assessment_type),
   ("scheduled_date", PyValue.str "2024-02-15")]

/-- `agent_utils.route_to_department` (lines 138-155). -/
def route_to_department (candidate_id department reason : String) : Outcome :=
  [("status", PyValue.str "success"),
   ("message", PyValue.str ("Candidate " ++ candidate_id ++ " routed to " ++ department)),
   ("department", PyValue.str department),
   ("reason", PyValue.str reason)]

/-- `agent_utils.request_additional_info` (lines 158-174). -/
def request_additional_info (candidate_id info_needed : String) : Outcome :=
  [("status", PyValue.str "success"),
   ("message", PyValue.str ("Additional info requested from candidate " ++ candidate_id)),
   ("info_needed", PyValue.str info_needed),
   ("request_sent_date", PyValue.str "2024-02-01")]

/-- `agent_utils.reject_application` (lines 177-193). -/
def reject_application (candidate_id reason : String) : Outcome :=
  [("status", PyValue.str "success"),
   ("message", PyValue.str ("Application rejected for candidate " ++ candidate_id)),
   ("reason", PyValue.str reason),
   ("rejection_email_sent", PyValue.bool true)]

/-- `agent_utils.flag_for_manual_review` (lines 196-212). -/
def flag_for_manual_review (candidate_id concern : String) : Outcome :=
  [("status", PyValue.str "success"),
   ("message", PyValue.str ("Candidate " ++ candidate_id ++ " flagged for manual review")),
   ("concern", PyValue.str concern),
   ("assigned_to", PyValue.str "hiring_manager")]

/-- `agent_utils.send_email` (lines 215-231). -/
def send_email (candidate_id template : String) : Outcome :=
  [("status", PyValue.str "success"),
   ("message", PyValue.str ("Email sent to candidate " ++ candidate_id)),
   ("template", PyValue.str template),
   ("sent_date", PyValue.str "2024-02-01")]

/-- `agent_utils.done` (lines 234-248). -/
def done (candidate_id : String) : Outcome :=
  [("status", PyValue.str "success"),
   ("message", PyValue.str ("Processing complete for candidate " ++ candidate_id)),
   ("final", PyValue.bool true)]

/-! ## Tool registry (`agent_utils.py`, lines 255-312)

The registry stores the bare Python functions; dispatching applies one to the
keyword dictionary the model chose (`candidate_id` plus `**params`).  Each
`..._fn` below is that function under keyword application: it succeeds exactly
when the parameter dictionary carries the declared non-`candidate_id`
parameters and nothing else (any other keyword set raises `TypeError`
in Python). -/

/-- `schedule_technical_assessment` under keyword application. -/
def schedule_technical_assessment_fn (candidate_id : String)
    (params : List (String × String)) : Option Outcome :=
  match params.lookup "assessment_type" with
  | some a => if params.length = 1 then some (schedule_technical_assessment candidate_id a)
              else Option.none
  | Option.none => Option.none

/-- `route_to_department` under keyword application. -/
def route_to_department_fn (candidate_id : String)
    (params : List (String × String)) : Option Outcome :=
  match params.lookup "department", params.lookup "reason" with
  | some d, some r => if params.length = 2 then some (route_to_department candidate_id d r)
                      else Option.none
  | _, _ => Option.none

/-- `request_additional_info` under keyword application. -/
def request_additional_info_fn (candidate_id : String)
    (params : List (String × String)) : Option Outcome :=
  match params.lookup "info_needed" with
  | some i => if params.length = 1 then some (request_additional_info candidate_id i)
              else Option.none
  | Option.none => Option.none

/-- `reject_application` under keyword application. -/
def reject_application_fn (candidate_id : String)
    (params : List (String × String)) : Option Outcome :=
  match params.lookup "reason" with
  | some r => if params.length = 1 then some (reject_application candidate_id r)
              else Option.none
  | Option.none => Option.none

/-- `flag_for_manual_review` under keyword application. -/
def flag_for_manual_review_fn (candidate_id : String)
    (params : List (String × String)) : Option Outcome :=
  match params.lookup "concern" with
  | some c => if params.length = 1 then some (flag_for_manual_review candidate_id c)
              else Option.none
  | Option.none => Option.none

/-- `send_email` under keyword application. -/
def send_email_fn (candidate_id : String)
    (params : List (String × String)) : Option Outcome :=
  match params.lookup "template" with
  | some t => if params.length = 1 then some (send_email candidate_id t)
              else Option.none
  | Option.none => Option.none

/-- `done` under keyword application (no parameters beyond `candidate_id`). -/
def done_fn (candidate_id : String)
    (params : List (String × String)) : Option Outcome :=
  match params with
  | [] => some (done candidate_id)
  | _ => Option.none

/-- One registry entry: the inner dictionary
`\x7b"function": ..., "description": ..., "parameters": ...\x7d`. -/
structure ToolEntry where
  fn : String → List (String × String) → Option Outcome
  description : String
  parameters : List (String × String)

/-- Registry entry for `schedule_technical_assessment` (lines 256-263). -/
def schedule_technical_assessment_entry : ToolEntry :=
  ⟨schedule_technical_assessment_fn,
   "Schedule a technical assessment (coding challenge, system design, etc.) for a promising candidate",
   [("candidate_id", "string - The candidate\x27s ID"),
    ("assessment_type", "string - Type of assessment: \x27coding_challenge\x27, \x27system_design\x27, \x27live_coding\x27")]⟩

/-- Registry entry for `route_to_department` (lines 264-272). -/
def route_to_department_entry : ToolEntry :=
  ⟨route_to_department_fn,
   "Route candidate to a specific department or hiring manager for further review",
   [("candidate_id", "string - The candidate\x27s ID"),
    ("department", "string - Department name: \x27senior_engineering\x27, \x27junior_engineering\x27, \x27internship\x27"),
    ("reason", "string - Reason for routing to this department")]⟩

/-- Registry entry for `request_additional_info` (lines 273-280). -/
def request_additional_info_entry : ToolEntry :=
  ⟨request_additional_info_fn,
   "Request additional information from the candidate (e.g., missing education details, clarification)",
   [("candidate_id", "string - The candidate\x27s ID"),
    ("info_needed", "string - Description of what information is needed")]⟩

/-- Registry entry for `reject_application` (lines 281-288). -/
def reject_application_entry : ToolEntry :=
  ⟨reject_application_fn,
   "Reject the candidate\x27s application with a reason",
   [("candidate_id", "string - The candidate\x27s ID"),
    ("reason", "string - Reason for rejection (be professional and constructive)")]⟩

/-- Registry entry for `flag_for_manual_review` (lines 289-296). -/
def flag_for_manual_review_entry : ToolEntry :=
  ⟨flag_for_manual_review_fn,
   "Flag candidate for manual human review when uncertain or edge case",
   [("candidate_id", "string - The candidate\x27s ID"),
    ("concern", "string - Description of what requires human judgment")]⟩

/-- Registry entry for `send_email` (lines 297-304). -/
def send_email_entry : ToolEntry :=
  ⟨send_email_fn,
   "Send an email to the candidate using a template",
   [("candidate_id", "string - The candidate\x27s ID"),
    ("template", "string - Template name: \x27technical_interview_invite\x27, \x27rejection\x27, \x27request_info\x27")]⟩

/-- Registry entry for `done` (lines 305-311). -/
def done_entry : ToolEntry :=
  ⟨done_fn,
   "Signal that processing is complete for this candidate. Call this when no further automated actions are needed.",
   [("candidate_id", "string - The candidate\x27s ID")]⟩

/-- `agent_utils.TOOL_REGISTRY` (lines 255-312): the module-level dictionary,
in source order.  It is a plain constant of the module, constructed once
at module load; nothing in the repository mutates it, which the embedding
reflects by making it an immutable definition. -/
def TOOL_REGISTRY : List (String × ToolEntry) :=
  [("schedule_technical_assessment", schedule_technical_assessment_entry),
   ("route_to_department", route_to_department_entry),
   ("request_additional_info", request_additional_info_entry),
   ("reject_application", reject_application_entry),
   ("flag_for_manual_review", flag_for_manual_review_entry),
   ("send_email", send_email_entry),
   ("done", done_entry)]

/-- Dispatch of a chosen action, modelled with explicit state passing of the
registry: look the name up, call the stored function, and return the outcome
together with the registry as it stands after the call.  The handlers build
fresh dictionaries and touch no shared state, so the registry passes through
unchanged. -/
def dispatch (reg : List (String × ToolEntry)) (name candidate_id : String)
    (params : List (String × String)) :
    Option Outcome × List (String × ToolEntry) :=
  match reg.lookup name with
  | some entry => (entry.fn candidate_id params, reg)
  | Option.none => (Option.none, reg)

/-! ## `load_resumes` (identical in both modules, lines 9-28)

A parsed CSV is modelled as the list of row dictionaries that
`csv.DictReader` yields (each row maps column name to cell text).  Missing
`ID` / `Resume_str` / `Resume_html` keys make the Python loop raise
`KeyError`, hence the `Option` result. -/

/-- One CSV row as produced by `csv.DictReader`. -/
abbrev Row := List (String × String)

/-- Python dict insertion `d[k] = v`: overwrite the value in place when the
key is present, append a new binding otherwise. -/
def pyDictInsert {α : Type} : List (String × α) → String → α → List (String × α)
  | [], k, v => [(k, v)]
  | (k₀, v₀) :: rest, k, v =>
      if k = k₀ then (k₀, v) :: rest else (k₀, v₀) :: pyDictInsert rest k v

/-- The dictionary built for one row:
`\x7b'ID': row['ID'], 'Resume_str': row['Resume_str'], 'Resume_html': row['Resume_html']\x7d`. -/
def mkEntry (row : Row) : Option Row :=
  match row.lookup "ID", row.lookup "Resume_str", row.lookup "Resume_html" with
  | some id, some rs, some rh =>
      some [("ID", id), ("Resume_str", rs), ("Resume_html", rh)]
  | _, _, _ => Option.none

/-- The `for row in reader` loop of `load_resumes`, with the accumulator
dictionary made explicit. -/
def loadResumesAux : List (String × Row) → List Row → Option (List (String × Row))
  | acc, [] => some acc
  | acc, row :: rest =>
      match row.lookup "ID", mkEntry row with
      | some id, some e => loadResumesAux (pyDictInsert acc id e) rest
      | _, _ => Option.none

/-- `load_resumes` on an already-parsed CSV (both modules, lines 9-28). -/
def load_resumes (rows : List Row) : Option (List (String × Row)) :=
  loadResumesAux [] rows

/-- The last row of the CSV whose `ID` cell is `id`, if any. -/
def lastRowFor : List Row → String → Option Row
  | [], _ => Option.none
  | row :: rest, id =>
      match lastRowFor rest id with
      | some r => some r
      | Option.none => if row.lookup "ID" = some id then some row else Option.none

/-! # Theorems -/

/-- The shared try/except body respects the envelope contract: exactly one of
`result`/`error` is non-null, and `usage` is the empty mapping whenever
`error` is set. -/
theorem completionAttempt_invariant (parse : String → Except String Json)
    (o : PostOutcome) :
    ((completionAttempt parse o).result.isSome
        ∧ (completionAttempt parse o).error = Option.none
      ∨ (completionAttempt parse o).result = Option.none
        ∧ (completionAttempt parse o).error.isSome)
    ∧ ((completionAttempt parse o).error.isSome →
        (completionAttempt parse o).usage = Json.obj []) := by
  cases o with
  | netFailure msg => simp [completionAttempt]
  | response resp =>
      obtain ⟨st, body⟩ := resp
      by_cases h : st < 200 ∨ 300 ≤ st
      · simp [completionAttempt, h]
      · cases body with
        | invalid e => simp [completionAttempt, h]
        | json data =>
            cases hx : extractContent data with
            | error e => simp [completionAttempt, h, hx]
            | ok content =>
                cases hp : parse content with
                | error e => simp [completionAttempt, h, hx, hp]
                | ok r => simp [completionAttempt, h, hx, hp]

/-- Each failure class of the try/except body yields exactly the error
envelope `⟨None, str(e), empty⟩`. -/
theorem completionAttempt_failure_cases (parse : String → Except String Json) :
    (∀ msg, completionAttempt parse (PostOutcome.netFailure msg)
        = ⟨Option.none, some msg, Json.obj []⟩)
    ∧ (∀ st body, st < 200 ∨ 300 ≤ st →
        completionAttempt parse (PostOutcome.response ⟨st, body⟩)
          = ⟨Option.none, some (statusErrorMessage st), Json.obj []⟩)
    ∧ (∀ st e, 200 ≤ st → st < 300 →
        completionAttempt parse (PostOutcome.response ⟨st, BodyModel.invalid e⟩)
          = ⟨Option.none, some e, Json.obj []⟩)
    ∧ (∀ st data e, 200 ≤ st → st < 300 → extractContent data = Except.error e →
        completionAttempt parse (PostOutcome.response ⟨st, BodyModel.json data⟩)
          = ⟨Option.none, some e, Json.obj []⟩)
    ∧ (∀ st data content e, 200 ≤ st → st < 300 →
        extractContent data = Except.ok content → parse content = Except.error e →
        completionAttempt parse (PostOutcome.response ⟨st, BodyModel.json data⟩)
          = ⟨Option.none, some e, Json.obj []⟩) := by
  refine ⟨fun msg => rfl, ?_, ?_, ?_, ?_⟩
  · intro st body h
    simp [completionAttempt, h]
  · intro st e h1 h2
    have h : ¬ (st < 200 ∨ 300 ≤ st) := by omega
    simp [completionAttempt, h]
  · intro st data e h1 h2 hx
    have h : ¬ (st < 200 ∨ 300 ≤ st) := by omega
    simp [completionAttempt, h, hx]
  · intro st data content e h1 h2 hx hp
    have h : ¬ (st < 200 ∨ 300 ≤ st) := by omega
    simp [completionAttempt, h, hx, hp]

/-- C1: for every invocation of `structured_llm_call` and `analyze_resume`
(over every content parser and every endpoint behaviour), the returned
envelope has exactly one of `result`/`error` non-null, and whenever `error`
is set the `usage` field is the empty mapping. -/
theorem C1_envelope_exclusive
    (parse : String → Except String Json) (api_key prompt : String)
    (context_data : List (String × PyValue)) (output_schema : Json)
    (model : String) (temperature : ℚ) (endpoint : HttpRequest → PostOutcome)
    (parse2 : String → Except String Json)
    (api_key2 prompt2 resume_text output_schema2 model2 : String)
    (temperature2 : ℚ) (endpoint2 : HttpRequest → PostOutcome) :
    ((structured_llm_call parse api_key prompt context_data output_schema model
          temperature endpoint).result.isSome
        ∧ (structured_llm_call parse api_key prompt context_data output_schema model
          temperature endpoint).error = Option.none
      ∨ (structured_llm_call parse api_key prompt context_data output_schema model
          temperature endpoint).result = Option.none
        ∧ (structured_llm_call parse api_key prompt context_data output_schema model
          temperature endpoint).error.isSome)
    ∧ ((structured_llm_call parse api_key prompt context_data output_schema model
          temperature endpoint).error.isSome →
        (structured_llm_call parse api_key prompt context_data output_schema model
          temperature endpoint).usage = Json.obj [])
    ∧ (((analyze_resume parse2 api_key2 prompt2 resume_text output_schema2 model2
          temperature2 endpoint2).result.isSome
        ∧ (analyze_resume parse2 api_key2 prompt2 resume_text output_schema2 model2
          temperature2 endpoint2).error = Option.none
      ∨ (analyze_resume parse2 api_key2 prompt2 resume_text output_schema2 model2
          temperature2 endpoint2).result = Option.none
        ∧ (analyze_resume parse2 api_key2 prompt2 resume_text output_schema2 model2
          temperature2 endpoint2).error.isSome))
    ∧ ((analyze_resume parse2 api_key2 prompt2 resume_text output_schema2 model2
          temperature2 endpoint2).error.isSome →
        (analyze_resume parse2 api_key2 prompt2 resume_text output_schema2 model2
          temperature2 endpoint2).usage = Json.obj []) :=
  ⟨(completionAttempt_invariant parse _).1, (completionAttempt_invariant parse _).2,
   (completionAttempt_invariant parse2 _).1, (completionAttempt_invariant parse2 _).2⟩

/-- A content parser that always fails, for concrete instantiations. -/
def parseAlwaysFails : String → Except String Json :=
  fun _ => Except.error "Expecting value: line 1 column 1 (char 0)"

/-- An endpoint whose `post` always raises a connection error. -/
def endpointDown : HttpRequest → PostOutcome :=
  fun _ => PostOutcome.netFailure "ConnectError: Connection refused"

/-- An endpoint that always answers with a 500 status and an undecodable body. -/
def endpointServerError : HttpRequest → PostOutcome :=
  fun _ => PostOutcome.response ⟨500, BodyModel.invalid "JSONDecodeError: Expecting value"⟩

/-- C1 witness: at a concrete failing endpoint, both gateway functions return
an empty `usage` mapping. -/
theorem C1_envelope_exclusive_witness :
    (structured_llm_call parseAlwaysFails "key" "prompt" [] (Json.obj []) "m" (1/5)
        endpointDown).usage = Json.obj []
    ∧ (analyze_resume parseAlwaysFails "key" "prompt" "resume" "schema" "m" (3/10)
        endpointDown).usage = Json.obj [] :=
  ⟨(C1_envelope_exclusive parseAlwaysFails "key" "prompt" [] (Json.obj []) "m" (1/5)
      endpointDown parseAlwaysFails "key" "prompt" "resume" "schema" "m" (3/10)
      endpointDown).2.1 (by rfl),
   (C1_envelope_exclusive parseAlwaysFails "key" "prompt" [] (Json.obj []) "m" (1/5)
      endpointDown parseAlwaysFails "key" "prompt" "resume" "schema" "m" (3/10)
      endpointDown).2.2.2 (by rfl)⟩

/-- C2: the gateway functions never raise — each is a total function equal to
the shared try/except body applied to the endpoint's outcome on the request
they build, and that body converts every failure class (network failure,
non-2xx status, undecodable response body, missing response fields,
content that fails JSON parsing) into the envelope
`⟨None, stringified failure, empty usage⟩`. -/
theorem C2_gateway_total
    (parse : String → Except String Json) (api_key prompt : String)
    (context_data : List (String × PyValue)) (output_schema : Json)
    (model : String) (temperature : ℚ) (endpoint : HttpRequest → PostOutcome)
    (parse2 : String → Except String Json)
    (api_key2 prompt2 resume_text output_schema2 model2 : String)
    (temperature2 : ℚ) (endpoint2 : HttpRequest → PostOutcome) :
    structured_llm_call parse api_key prompt context_data output_schema model
        temperature endpoint
      = completionAttempt parse (endpoint (structured_llm_call_request api_key prompt
          context_data output_schema model temperature))
    ∧ analyze_resume parse2 api_key2 prompt2 resume_text output_schema2 model2
        temperature2 endpoint2
      = completionAttempt parse2 (endpoint2 (analyze_resume_request api_key2 prompt2
          resume_text output_schema2 model2 temperature2))
    ∧ (∀ p msg, completionAttempt p (PostOutcome.netFailure msg)
        = ⟨Option.none, some msg, Json.obj []⟩)
    ∧ (∀ p st body, st < 200 ∨ 300 ≤ st →
        completionAttempt p (PostOutcome.response ⟨st, body⟩)
          = ⟨Option.none, some (statusErrorMessage st), Json.obj []⟩)
    ∧ (∀ p st e, 200 ≤ st → st < 300 →
        completionAttempt p (PostOutcome.response ⟨st, BodyModel.invalid e⟩)
          = ⟨Option.none, some e, Json.obj []⟩)
    ∧ (∀ p st data e, 200 ≤ st → st < 300 → extractContent data = Except.error e →
        completionAttempt p (PostOutcome.response ⟨st, BodyModel.json data⟩)
          = ⟨Option.none, some e, Json.obj []⟩)
    ∧ (∀ p st data content e, 200 ≤ st → st < 300 →
        extractContent data = Except.ok content → p content = Except.error e →
        completionAttempt p (PostOutcome.response ⟨st, BodyModel.json data⟩)
          = ⟨Option.none, some e, Json.obj []⟩) :=
  ⟨rfl, rfl,
   fun p => (completionAttempt_failure_cases p).1,
   fun p => (completionAttempt_failure_cases p).2.1,
   fun p => (completionAttempt_failure_cases p).2.2.1,
   fun p => (completionAttempt_failure_cases p).2.2.2.1,
   fun p => (completionAttempt_failure_cases p).2.2.2.2⟩

/-- C2 witness: against a concrete endpoint that responds with status 500,
`structured_llm_call` returns exactly the error envelope. -/
theorem C2_gateway_total_witness :
    structured_llm_call parseAlwaysFails "key" "prompt" [] (Json.obj []) "m" (1/5)
        endpointServerError
      = ⟨Option.none, some (statusErrorMessage 500), Json.obj []⟩ :=
  ((C2_gateway_total parseAlwaysFails "key" "prompt" [] (Json.obj []) "m" (1/5)
      endpointServerError parseAlwaysFails "key" "prompt" "resume" "schema" "m" (3/10)
      endpointServerError).1).trans
    ((C2_gateway_total parseAlwaysFails "key" "prompt" [] (Json.obj []) "m" (1/5)
      endpointServerError parseAlwaysFails "key" "prompt" "resume" "schema" "m" (3/10)
      endpointServerError).2.2.2.1 parseAlwaysFails 500
      (BodyModel.invalid "JSONDecodeError: Expecting value") (by decide))

/-- The key list of a JSON object (empty for non-objects). -/
def objKeys : Json → List String
  | Json.obj kvs => kvs.map Prod.fst
  | _ => []

/-- Key lookup inside a JSON object. -/
def objLookup : Json → String → Option Json
  | Json.obj kvs, k => kvs.lookup k
  | _, _ => Option.none

/-- C8: both gateway functions post a request whose body carries exactly the
keys `model`, `messages`, `temperature`, `max_tokens`, `response_format`;
`messages` is a single user-role message holding the assembled prompt;
`response_format` requests a JSON object; and the headers carry a bearer
token built from the api key. -/
theorem C8_request_shape
    (parse : String → Except String Json) (api_key prompt : String)
    (context_data : List (String × PyValue)) (output_schema : Json)
    (model : String) (temperature : ℚ) (endpoint : HttpRequest → PostOutcome)
    (parse2 : String → Except String Json)
    (api_key2 prompt2 resume_text output_schema2 model2 : String)
    (temperature2 : ℚ) (endpoint2 : HttpRequest → PostOutcome) :
    structured_llm_call parse api_key prompt context_data output_schema model
        temperature endpoint
      = completionAttempt parse (endpoint (structured_llm_call_request api_key prompt
          context_data output_schema model temperature))
    ∧ objKeys (structured_llm_call_request api_key prompt context_data output_schema
          model temperature).payload
      = ["model", "messages", "temperature", "max_tokens", "response_format"]
    ∧ objLookup (structured_llm_call_request api_key prompt context_data output_schema
          model temperature).payload "messages"
      = some (Json.arr [Json.obj [("role", Json.str "user"),
          ("content", Json.str (structured_full_prompt prompt context_data output_schema))]])
    ∧ objLookup (structured_llm_call_request api_key prompt context_data output_schema
          model temperature).payload "response_format"
      = some (Json.obj [("type", Json.str "json_object")])
    ∧ (structured_llm_call_request api_key prompt context_data output_schema
          model temperature).headers.lookup "Authorization"
      = some ("Bearer " ++ api_key)
    ∧ analyze_resume parse2 api_key2 prompt2 resume_text output_schema2 model2
        temperature2 endpoint2
      = completionAttempt parse2 (endpoint2 (analyze_resume_request api_key2 prompt2
          resume_text output_schema2 model2 temperature2))
    ∧ objKeys (analyze_resume_request api_key2 prompt2 resume_text output_schema2
          model2 temperature2).payload
      = ["model", "messages", "temperature", "max_tokens", "response_format"]
    ∧ objLookup (analyze_resume_request api_key2 prompt2 resume_text output_schema2
          model2 temperature2).payload "messages"
      = some (Json.arr [Json.obj [("role", Json.str "user"),
          ("content", Json.str (analyze_full_prompt prompt2 resume_text output_schema2))]])
    ∧ objLookup (analyze_resume_request api_key2 prompt2 resume_text output_schema2
          model2 temperature2).payload "response_format"
      = some (Json.obj [("type", Json.str "json_object")])
    ∧ (analyze_resume_request api_key2 prompt2 resume_text output_schema2
          model2 temperature2).headers.lookup "Authorization"
      = some ("Bearer " ++ api_key2) :=
  ⟨rfl, rfl, rfl, rfl, rfl, rfl, rfl, rfl, rfl, rfl⟩

/-- C4: the Action Registry is a static mapping whose keys are exactly the
seven action names, in source order; each of the seven descriptors carries a
handler function, a non-empty description string and a non-empty parameter
schema mapping.  The registry is an immutable top-level definition, so no
entry can be added or removed at runtime. -/
theorem C4_registry_catalog :
    TOOL_REGISTRY.map Prod.fst =
      ["schedule_technical_assessment", "route_to_department", "request_additional_info",
       "reject_application", "flag_for_manual_review", "send_email", "done"]
    ∧ TOOL_REGISTRY.length = 7
    ∧ (TOOL_REGISTRY.all fun e =>
        (!(e.2.description == "")) && (!(e.2.parameters.isEmpty))) = true :=
  ⟨rfl, rfl, rfl⟩

/-- C5: dispatch of any action name against the registry is deterministic and
free of hidden state: with the registry threaded through as explicit state,
a dispatch leaves the registry unchanged, and a second dispatch of the same
`(name, candidate_id, params)` produces the same outcome again. -/
theorem C5_dispatch_deterministic (name candidate_id : String)
    (params : List (String × String)) :
    (dispatch TOOL_REGISTRY name candidate_id params).2 = TOOL_REGISTRY
    ∧ (dispatch (dispatch TOOL_REGISTRY name candidate_id params).2
        name candidate_id params).1
      = (dispatch TOOL_REGISTRY name candidate_id params).1
    ∧ (dispatch (dispatch TOOL_REGISTRY name candidate_id params).2
        name candidate_id params).2 = TOOL_REGISTRY := by
  cases h : TOOL_REGISTRY.lookup name <;> simp [dispatch, h]

/-- C7: for every candidate id and reason, the `reject_application` handler
returns an outcome whose `status` field is "success" and whose
`rejection_email_sent` field is `True`. -/
theorem C7_reject_outcome (candidate_id reason : String) :
    (reject_application candidate_id reason).lookup "status"
        = some (PyValue.str "success")
    ∧ (reject_application candidate_id reason).lookup "rejection_email_sent"
        = some (PyValue.bool true) :=
  ⟨rfl, rfl⟩

/-- C9: every handler reachable through the registry reports success: for any
registered action and any keyword parameters under which the stored function
returns an outcome at all, that outcome's `status` field is "success", so no
shipped handler can report a failure. -/
theorem C9_handlers_success (name : String) (entry : ToolEntry)
    (hmem : (name, entry) ∈ TOOL_REGISTRY) (candidate_id : String)
    (params : List (String × String)) (outcome : Outcome)
    (hout : entry.fn candidate_id params = some outcome) :
    outcome.lookup "status" = some (PyValue.str "success") := by
  simp only [TOOL_REGISTRY, List.mem_cons, List.not_mem_nil, or_false,
    Prod.mk.injEq] at hmem
  rcases hmem with ⟨-, rfl⟩ | ⟨-, rfl⟩ | ⟨-, rfl⟩ | ⟨-, rfl⟩ | ⟨-, rfl⟩ | ⟨-, rfl⟩ | ⟨-, rfl⟩ <;>
    simp only [schedule_technical_assessment_entry, route_to_department_entry,
      request_additional_info_entry, reject_application_entry,
      flag_for_manual_review_entry, send_email_entry, done_entry,
      schedule_technical_assessment_fn, route_to_department_fn,
      request_additional_info_fn, reject_application_fn, flag_for_manual_review_fn,
      send_email_fn, done_fn] at hout <;>
    (repeat split at hout) <;>
    (cases hout <;> rfl)

/-- C9 witness: the `done` handler, dispatched through its registry entry with
no extra parameters, reports success. -/
theorem C9_handlers_success_witness :
    (done "cand-1").lookup "status" = some (PyValue.str "success") :=
  C9_handlers_success "done" done_entry (by simp [TOOL_REGISTRY]) "cand-1" []
    (done "cand-1") rfl

/-- Length of a Python slice: `pyTake` keeps `min n (length s)` characters. -/
theorem pyTake_length (s : String) (n : Nat) : (pyTake s n).length = min n s.length := by
  rw [pyTake, String.mk_length, List.length_take, String.length_data]

/-- A résumé text of 5001 identical characters — longer than the claimed
5000-character truncation threshold. -/
def longResumeText : String := String.mk (List.replicate 5001 'a')

/-- The concrete counterexample input is 5001 characters long. -/
theorem longResumeText_length : longResumeText.length = 5001 := by
  rw [longResumeText, String.mk_length, List.length_replicate]

/-- C3 counterexample: `analyze_resume` does not render oversized fields as
their first 5000 characters plus a truncation marker.  On a 5001-character
résumé its rendered résumé field is the bare first 3000 characters — in
particular it is not the first 5000 characters followed by the "(truncated)"
marker used by `structured_llm_call`. -/
theorem C3_counterexample :
    5000 < longResumeText.length
    ∧ (analyzeRenderedResume longResumeText).length = 3000
    ∧ analyzeRenderedResume longResumeText
        ≠ pyTake longResumeText 5000 ++ TRUNCATION_MARKER := by
  have hlen : longResumeText.length = 5001 := longResumeText_length
  have hmarker : TRUNCATION_MARKER.length = 16 := rfl
  refine ⟨by omega, ?_, ?_⟩
  · rw [analyzeRenderedResume, pyTake_length, hlen]
    omega
  · intro hEq
    have hCl := congrArg String.length hEq
    rw [analyzeRenderedResume, String.length_append, pyTake_length, pyTake_length,
      hlen] at hCl
    omega

/-- C3 amended: in `structured_llm_call`, every string-valued context field
longer than 5000 characters is rendered as its first 5000 characters followed
by the fixed marker `"\n... (truncated)"`, so the rendered value is exactly
5000 characters plus the marker's fixed length; in `analyze_resume`, the
résumé text is instead cut to its first 3000 characters with no marker. -/
theorem C3_truncation_amended :
    (∀ key s, 5000 < s.length →
        renderField key (PyValue.str s)
          = "\n" ++ pyUpper key ++ ":\n" ++ (pyTake s 5000 ++ TRUNCATION_MARKER) ++ "\n"
        ∧ (pyStr (truncateValue (PyValue.str s))).length
            = 5000 + TRUNCATION_MARKER.length)
    ∧ TRUNCATION_MARKER = "\n... (truncated)"
    ∧ (∀ resume_text,
        analyzeRenderedResume resume_text = pyTake resume_text 3000
        ∧ (analyzeRenderedResume resume_text).length ≤ 3000) := by
  refine ⟨?_, rfl, fun resume_text => ⟨rfl, ?_⟩⟩
  · intro key s h
    have hgt : s.length > 5000 := h
    constructor
    · simp [renderField, truncateValue, hgt, pyStr]
    · simp only [truncateValue, hgt, if_pos, pyStr]
      rw [String.length_append, pyTake_length]
      omega
  · rw [analyzeRenderedResume, pyTake_length]
    omega

/-- C3 amended witness: the truncation equations evaluated on a concrete
5001-character field. -/
theorem C3_truncation_amended_witness :
    renderField "resume" (PyValue.str longResumeText)
      = "\n" ++ pyUpper "resume" ++ ":\n"
          ++ (pyTake longResumeText 5000 ++ TRUNCATION_MARKER) ++ "\n"
    ∧ (pyStr (truncateValue (PyValue.str longResumeText))).length
        = 5000 + TRUNCATION_MARKER.length :=
  C3_truncation_amended.1 "resume" longResumeText
    (by rw [longResumeText_length]; omega)

/-- C6 counterexample: a null field value is not rendered as the empty
string — Python's f-string renders `None` as the four characters "None", so
the context block for a single null field is "\nRESUME:\nNone\n" and not
"\nRESUME:\n\n". -/
theorem C6_counterexample :
    buildContextStr [("resume", PyValue.none)] = "\nRESUME:\nNone\n"
    ∧ buildContextStr [("resume", PyValue.none)] ≠ "\nRESUME:\n\n" := by
  constructor
  · rfl
  · intro h
    exact absurd (rfl.symm.trans h) (by decide)

/-- C6 amended: the Context Assembler is a pure total transformation (it is a
fold of per-field rendering, so extending the bundle only appends text), a
missing field contributes nothing, and a null field value is rendered as the
string "None" (Python's `str(None)`), not as the empty string. -/
theorem C6_null_rendering_amended :
    (∀ key, renderField key PyValue.none = "\n" ++ pyUpper key ++ ":\n" ++ "None" ++ "\n")
    ∧ (∀ context_data key value,
        buildContextStr (context_data ++ [(key, value)])
          = buildContextStr context_data ++ renderField key value)
    ∧ buildContextStr [] = "" := by
  refine ⟨fun key => rfl, ?_, rfl⟩
  intro context_data key value
  simp [buildContextStr, List.foldl_append]

/-- Unfolding lemma for `List.lookup` over a cons cell, with the boolean key
test replaced by a propositional one. -/
theorem lookup_cons_eq {α : Type} (k₀ k' : String) (v₀ : α) (rest : List (String × α)) :
    List.lookup k' ((k₀, v₀) :: rest) = if k' = k₀ then some v₀ else List.lookup k' rest := by
  by_cases h : k' = k₀
  · have hb : (k' == k₀) = true := beq_iff_eq.mpr h
    simp [List.lookup, hb, h]
  · have hb : (k' == k₀) = false := beq_eq_false_iff_ne.mpr h
    simp [List.lookup, hb, h]

/-- Looking a key up after a Python dict insertion: the inserted key maps to
the new value; every other key is untouched. -/
theorem pyDictInsert_lookup {α : Type} (d : List (String × α)) (k k' : String) (v : α) :
    (pyDictInsert d k v).lookup k' = if k' = k then some v else d.lookup k' := by
  induction d with
  | nil =>
      rw [pyDictInsert, lookup_cons_eq]
  | cons p rest ih =>
      obtain ⟨k₀, v₀⟩ := p
      rw [pyDictInsert]
      by_cases h1 : k = k₀
      · subst h1
        rw [if_pos rfl, lookup_cons_eq, lookup_cons_eq]
        by_cases h2 : k' = k
        · rw [if_pos h2, if_pos h2]
        · rw [if_neg h2, if_neg h2, if_neg h2]
      · rw [if_neg h1, lookup_cons_eq, lookup_cons_eq]
        by_cases h2 : k' = k₀
        · subst h2
          have h3 : ¬ k' = k := fun hc => h1 hc.symm
          rw [if_pos rfl, if_neg h3, if_pos rfl]
        · rw [if_neg h2, if_neg h2, ih]

/-- A successfully built row entry carries exactly the keys
`ID`, `Resume_str`, `Resume_html`, in that order. -/
theorem mkEntry_keys (r e : Row) (h : mkEntry r = some e) :
    e.map Prod.fst = ["ID", "Resume_str", "Resume_html"] := by
  unfold mkEntry at h
  split at h
  · cases h
    rfl
  · cases h

/-- The last matching row is a member of the list and its `ID` cell is the
looked-up id. -/
theorem lastRowFor_mem (rows : List Row) (id : String) :
    ∀ r, lastRowFor rows id = some r → r ∈ rows ∧ r.lookup "ID" = some id := by
  induction rows with
  | nil => intro r h; cases h
  | cons row rest ih =>
      intro r h
      rw [lastRowFor] at h
      cases hlast : lastRowFor rest id with
      | some r₀ =>
          rw [hlast] at h
          obtain rfl := Option.some.inj h
          obtain ⟨hm, hid⟩ := ih _ hlast
          exact ⟨List.mem_cons_of_mem row hm, hid⟩
      | none =>
          rw [hlast] at h
          by_cases hc : List.lookup "ID" row = some id
          · rw [if_pos hc] at h
            obtain rfl := Option.some.inj h
            exact ⟨List.mem_cons_self _ _, hc⟩
          · rw [if_neg hc] at h
            cases h

/-- `lastRowFor` finds a row exactly when some row has the given id. -/
theorem lastRowFor_isSome (rows : List Row) (id : String) :
    (lastRowFor rows id).isSome ↔ ∃ r ∈ rows, r.lookup "ID" = some id := by
  induction rows with
  | nil => simp [lastRowFor]
  | cons row rest ih =>
      rw [lastRowFor]
      cases hlast : lastRowFor rest id with
      | some r =>
          simp only [Option.isSome_some, true_iff]
          obtain ⟨hm, hid⟩ := lastRowFor_mem rest id r hlast
          exact ⟨r, List.mem_cons_of_mem row hm, hid⟩
      | none =>
          rw [hlast] at ih
          simp only [Option.isSome_none, Bool.false_eq_true, false_iff] at ih
          by_cases hc : List.lookup "ID" row = some id
          · rw [if_pos hc]
            simp only [Option.isSome_some, true_iff]
            exact ⟨row, List.mem_cons_self row rest, hc⟩
          · rw [if_neg hc]
            simp only [Option.isSome_none, Bool.false_eq_true, false_iff]
            intro hex
            obtain ⟨r, hm, hid⟩ := hex
            rcases List.mem_cons.mp hm with rfl | hm₀
            · exact hc hid
            · exact ih ⟨r, hm₀, hid⟩

/-- The accumulator-generalised specification of the `load_resumes` loop:
when every row carries its three columns, the loop succeeds and the final
dictionary maps each id to the entry of the *last* row with that id, leaving
other keys as the accumulator had them. -/
theorem loadResumesAux_lookup (rows : List Row) :
    ∀ acc : List (String × Row), (∀ r ∈ rows, (mkEntry r).isSome) →
      ∃ d, loadResumesAux acc rows = some d ∧
        ∀ id, d.lookup id =
          (match lastRowFor rows id with
           | some r => mkEntry r
           | Option.none => acc.lookup id) := by
  induction rows with
  | nil =>
      intro acc _
      exact ⟨acc, rfl, fun id => by simp [lastRowFor]⟩
  | cons row rest ih =>
      intro acc hall
      have hrow : (mkEntry row).isSome := hall row (List.mem_cons_self row rest)
      cases hid : List.lookup "ID" row with
      | none => simp [mkEntry, hid] at hrow
      | some id =>
        cases hrs : List.lookup "Resume_str" row with
        | none => simp [mkEntry, hid, hrs] at hrow
        | some rs =>
          cases hrh : List.lookup "Resume_html" row with
          | none => simp [mkEntry, hid, hrs, hrh] at hrow
          | some rh =>
            have hmk : mkEntry row
                = some [("ID", id), ("Resume_str", rs), ("Resume_html", rh)] := by
              simp [mkEntry, hid, hrs, hrh]
            obtain ⟨d, hd, hl⟩ :=
              ih (pyDictInsert acc id [("ID", id), ("Resume_str", rs), ("Resume_html", rh)])
                (fun r hr => hall r (List.mem_cons_of_mem row hr))
            refine ⟨d, ?_, ?_⟩
            · rw [loadResumesAux, hid, hmk]
              exact hd
            · intro id'
              rw [hl id']
              cases hlast : lastRowFor rest id' with
              | some r => simp [lastRowFor, hlast]
              | none =>
                  rw [pyDictInsert_lookup]
                  simp only [lastRowFor, hlast, hid]
                  by_cases hc : id' = id
                  · subst hc
                    simp [hmk]
                  · have hc' : ¬ some id = some id' := by
                      intro hs
                      exact hc (Option.some.injEq id id' ▸ hs).symm
                    simp [hc, hc']

/-- C10: for every parsed CSV whose rows carry the `ID`, `Resume_str` and
`Resume_html` columns (which `csv.DictReader` guarantees for such a header),
`load_resumes` succeeds; its keys are exactly the `ID` values appearing in the
rows; each stored entry holds exactly the three keys `ID`, `Resume_str`,
`Resume_html` copied from a row with that id; and when several rows share an
id the stored entry is the one built from the *last* such row, i.e. later
rows overwrite earlier ones. -/
theorem C10_load_resumes (rows : List Row)
    (h : ∀ r ∈ rows, (r.lookup "ID").isSome ∧ (r.lookup "Resume_str").isSome
          ∧ (r.lookup "Resume_html").isSome) :
    ∃ d, load_resumes rows = some d
      ∧ (∀ id, d.lookup id =
            (match lastRowFor rows id with
             | some r => mkEntry r
             | Option.none => Option.none))
      ∧ (∀ id, (d.lookup id).isSome ↔ ∃ r ∈ rows, r.lookup "ID" = some id)
      ∧ (∀ id e, d.lookup id = some e →
          e.map Prod.fst = ["ID", "Resume_str", "Resume_html"]
          ∧ ∃ r, lastRowFor rows id = some r ∧ r ∈ rows
              ∧ r.lookup "ID" = some id ∧ mkEntry r = some e) := by
  have hall : ∀ r ∈ rows, (mkEntry r).isSome := by
    intro r hr
    obtain ⟨h1, h2, h3⟩ := h r hr
    obtain ⟨id, hid⟩ := Option.isSome_iff_exists.mp h1
    obtain ⟨rs, hrs⟩ := Option.isSome_iff_exists.mp h2
    obtain ⟨rh, hrh⟩ := Option.isSome_iff_exists.mp h3
    simp [mkEntry, hid, hrs, hrh]
  obtain ⟨d, hd, hl⟩ := loadResumesAux_lookup rows [] hall
  have hmain : ∀ id, d.lookup id =
      (match lastRowFor rows id with
       | some r => mkEntry r
       | Option.none => Option.none) := by
    intro id
    rw [hl id]
    cases lastRowFor rows id <;> rfl
  refine ⟨d, hd, hmain, ?_, ?_⟩
  · intro id
    rw [hmain id, ← lastRowFor_isSome]
    cases hlast : lastRowFor rows id with
    | some r =>
        simp only [Option.isSome_some, true_iff, iff_true]
        obtain ⟨hm, _⟩ := lastRowFor_mem rows id r hlast
        exact hall r hm
    | none => simp
  · intro id e he
    rw [hmain id] at he
    cases hlast : lastRowFor rows id with
    | some r =>
        rw [hlast] at he
        obtain ⟨hm, hid⟩ := lastRowFor_mem rows id r hlast
        exact ⟨mkEntry_keys r e he, r, rfl, hm, hid, he⟩
    | none =>
        rw [hlast] at he
        cases he

/-- Two concrete CSV rows sharing the id "A": the second must win. -/
def sampleRows : List Row :=
  [[("ID", "A"), ("Resume_str", "first text"), ("Resume_html", "<p>first</p>")],
   [("ID", "A"), ("Resume_str", "second text"), ("Resume_html", "<p>second</p>")]]

/-- C10 witness: the specification instantiated on two concrete rows that
share an id. -/
theorem C10_load_resumes_witness :
    ∃ d, load_resumes sampleRows = some d
      ∧ (∀ id, d.lookup id =
            (match lastRowFor sampleRows id with
             | some r => mkEntry r
             | Option.none => Option.none))
      ∧ (∀ id, (d.lookup id).isSome ↔ ∃ r ∈ sampleRows, r.lookup "ID" = some id)
      ∧ (∀ id e, d.lookup id = some e →
          e.map Prod.fst = ["ID", "Resume_str", "Resume_html"]
          ∧ ∃ r, lastRowFor sampleRows id = some r ∧ r ∈ sampleRows
              ∧ r.lookup "ID" = some id ∧ mkEntry r = some e) :=
  C10_load_resumes sampleRows (by decide)

end ResumeAgent
